import Mathlib

/-
Verification of the activitypub.py core against its specification.

The development shallowly embeds the two source modules:
  * `helper.py`  — digest and HTTP-signature helpers;
  * `model.py`   — the pydantic document model.

Machine-level conventions of the embedding:
  * Python byte strings are `List Nat` (each element < 256);
  * 32-bit arithmetic is `Nat` with explicit reduction modulo 2^32;
  * fallible Python code returns `Except`/structured outcomes, with an
    exception that escapes uncaught modelled by an explicit error value.
-/

/-- Python exceptions that escape a pydantic validator uncaught.  Pydantic v2
only converts `ValueError`/`AssertionError` into validation failures; any other
exception type propagates to the caller of the constructor. -/
inductive PyErr where
  | typeError
  | attributeError
deriving DecidableEq, Repr

-- ===========================================================================
-- SHA-256 (the `hashlib.sha256` of helper.py's generate_digest), over byte
-- lists, 32-bit words as Nat mod 2^32.
-- ===========================================================================

def w32 (n : Nat) : Nat := n % 4294967296

def rotr (n x : Nat) : Nat := w32 ((x >>> n) ||| (x <<< (32 - n)))

def shr (n x : Nat) : Nat := x >>> n

def bigSigma0 (x : Nat) : Nat := (rotr 2 x) ^^^ (rotr 13 x) ^^^ (rotr 22 x)

def bigSigma1 (x : Nat) : Nat := (rotr 6 x) ^^^ (rotr 11 x) ^^^ (rotr 25 x)

def smallSigma0 (x : Nat) : Nat := (rotr 7 x) ^^^ (rotr 18 x) ^^^ (shr 3 x)

def smallSigma1 (x : Nat) : Nat := (rotr 17 x) ^^^ (rotr 19 x) ^^^ (shr 10 x)

def chFn (x y z : Nat) : Nat := (x &&& y) ^^^ ((x ^^^ 4294967295) &&& z)

def majFn (x y z : Nat) : Nat := (x &&& y) ^^^ (x &&& z) ^^^ (y &&& z)

def sha256K : List Nat := [
  1116352408, 1899447441, 3049323471, 3921009573,
  961987163, 1508970993, 2453635748, 2870763221,
  3624381080, 310598401, 607225278, 1426881987,
  1925078388, 2162078206, 2614888103, 3248222580,
  3835390401, 4022224774, 264347078, 604807628,
  770255983, 1249150122, 1555081692, 1996064986,
  2554220882, 2821834349, 2952996808, 3210313671,
  3336571891, 3584528711, 113926993, 338241895,
  666307205, 773529912, 1294757372, 1396182291,
  1695183700, 1986661051, 2177026350, 2456956037,
  2730485921, 2820302411, 3259730800, 3345764771,
  3516065817, 3600352804, 4094571909, 275423344,
  430227734, 506948616, 659060556, 883997877,
  958139571, 1322822218, 1537002063, 1747873779,
  1955562222, 2024104815, 2227730452, 2361852424,
  2428436474, 2756734187, 3204031479, 3329325298]

structure Hash8 where
  a : Nat
  b : Nat
  c : Nat
  d : Nat
  e : Nat
  f : Nat
  g : Nat
  h : Nat
deriving Repr, DecidableEq

def sha256InitH : Hash8 :=
  ⟨1779033703, 3144134277, 1013904242, 2773480762,
   1359893119, 2600822924, 528734635, 1541459225⟩

/-- Big-endian 8-byte encoding of a natural number (the length field of the
SHA-256 padding). -/
def be64 (n : Nat) : List Nat :=
  [(n >>> 56) % 256, (n >>> 48) % 256, (n >>> 40) % 256, (n >>> 32) % 256,
   (n >>> 24) % 256, (n >>> 16) % 256, (n >>> 8) % 256, n % 256]

/-- Big-endian 4-byte encoding of a 32-bit word. -/
def be32 (n : Nat) : List Nat :=
  [(n >>> 24) % 256, (n >>> 16) % 256, (n >>> 8) % 256, n % 256]

/-- SHA-256 padding: a 0x80 byte, zeros up to 56 mod 64, then the bit length. -/
def padMessage (msg : List Nat) : List Nat :=
  msg ++ [0x80] ++ List.replicate ((119 - msg.length % 64) % 64) 0
      ++ be64 (8 * msg.length)

/-- Group bytes four at a time into big-endian 32-bit words. -/
def toWords : List Nat → List Nat
  | a :: b :: c :: d :: rest =>
      (a * 16777216 + b * 65536 + c * 256 + d) :: toWords rest
  | _ => []

/-- Extend the 16 block words to the 64-entry message schedule. -/
def buildW (w16 : Array Nat) : Array Nat :=
  (List.range 48).foldl
    (fun w j =>
      let i := j + 16
      w.push (w32 (smallSigma1 (w.getD (i - 2) 0) + w.getD (i - 7) 0 +
                   smallSigma0 (w.getD (i - 15) 0) + w.getD (i - 16) 0)))
    w16

def sha256Round (s : Hash8) (ki wi : Nat) : Hash8 :=
  let t1 := w32 (s.h + bigSigma1 s.e + chFn s.e s.f s.g + ki + wi)
  let t2 := w32 (bigSigma0 s.a + majFn s.a s.b s.c)
  ⟨w32 (t1 + t2), s.a, s.b, s.c, w32 (s.d + t1), s.e, s.f, s.g⟩

def processBlock (h : Hash8) (block : List Nat) : Hash8 :=
  let w := buildW (Array.mk (toWords block))
  let s := (List.zip sha256K w.toList).foldl
    (fun s kw => sha256Round s kw.1 kw.2) h
  ⟨w32 (h.a + s.a), w32 (h.b + s.b), w32 (h.c + s.c), w32 (h.d + s.d),
   w32 (h.e + s.e), w32 (h.f + s.f), w32 (h.g + s.g), w32 (h.h + s.h)⟩

/-- Split a byte list into 64-byte chunks (structural recursion on a fuel
bounded below by the list length, so `chunks64` reduces definitionally). -/
def chunks64Aux : Nat → List Nat → List (List Nat)
  | _, [] => []
  | 0, _ => []
  | fuel + 1, l => (l.take 64) :: chunks64Aux fuel (l.drop 64)

def chunks64 (l : List Nat) : List (List Nat) := chunks64Aux l.length l

/-- SHA-256 of a byte list, as the list of 32 digest bytes. -/
def sha256Bytes (msg : List Nat) : List Nat :=
  let hh := (chunks64 (padMessage msg)).foldl processBlock sha256InitH
  ([hh.a, hh.b, hh.c, hh.d, hh.e, hh.f, hh.g, hh.h].map be32).flatten

-- ===========================================================================
-- base64.b64encode and str.encode() (UTF-8), as used by generate_digest.
-- ===========================================================================

def base64Alphabet : List Char :=
  "ABCDEFGHIJKLMNOPQRSTUVWXYZabcdefghijklmnopqrstuvwxyz0123456789+/".toList

def b64Char (n : Nat) : Char := base64Alphabet.getD n 'A'

/-- Standard base64 of a byte list (three input bytes at a time, `=` padding),
mirroring Python's `base64.b64encode`. -/
def b64encodeChars : List Nat → List Char
  | [] => []
  | [a] => [b64Char (a >>> 2), b64Char ((a % 4) <<< 4), '=', '=']
  | [a, b] => [b64Char (a >>> 2), b64Char (((a % 4) <<< 4) ||| (b >>> 4)),
               b64Char ((b % 16) <<< 2), '=']
  | a :: b :: c :: rest =>
      b64Char (a >>> 2) :: b64Char (((a % 4) <<< 4) ||| (b >>> 4)) ::
      b64Char (((b % 16) <<< 2) ||| (c >>> 6)) :: b64Char (c % 64) ::
      b64encodeChars rest

def b64encode (bs : List Nat) : String := String.mk (b64encodeChars bs)

/-- UTF-8 encoding of one character (Python `str.encode()` with the default
encoding encodes code points this way). -/
def utf8EncodeCharBytes (c : Char) : List Nat :=
  let n := c.toNat
  if n < 128 then [n]
  else if n < 2048 then [192 ||| (n >>> 6), 128 ||| (n % 64)]
  else if n < 65536 then
    [224 ||| (n >>> 12), 128 ||| ((n >>> 6) % 64), 128 ||| (n % 64)]
  else
    [240 ||| (n >>> 18), 128 ||| ((n >>> 12) % 64), 128 ||| ((n >>> 6) % 64),
     128 ||| (n % 64)]

def utf8Bytes (s : String) : List Nat :=
  (s.data.map utf8EncodeCharBytes).flatten

-- ===========================================================================
-- helper.py: generate_digest / verify_digest
-- ===========================================================================

/-- helper.py lines 23-26: `generate_digest(raw_body)` returns the pair
`('SHA-256', base64(sha256(raw_body.encode())))`. -/
def generate_digest (raw_body : String) : String × String :=
  ("SHA-256", b64encode (sha256Bytes (utf8Bytes raw_body)))

/-- helper.py lines 29-31: recompute the digest of `raw_body` and compare the
base64 value with `received_digest`. -/
def verify_digest (raw_body received_digest : String) : Bool :=
  received_digest == (generate_digest raw_body).2

-- ===========================================================================
-- helper.py: generate_signature / verify_signature
--
-- The cryptographic work is done by the external `httpsig` library
-- (`HeaderSigner` / `HeaderVerifier`); it is abstracted as function
-- parameters (`sign`, `verify`).  Everything else — the header-list
-- selection, the Signature header format, the signing-string shape and the
-- `headers="..."` extraction regex — is embedded below.
-- ===========================================================================

/-- Header dictionaries of helper.py, as association lists (Python `dict`,
first binding wins on lookup). -/
def getHeader (headers : List (String × String)) (k : String) : Option String :=
  (headers.find? (fun p => p.1 == k)).map Prod.snd

def hasHeader (headers : List (String × String)) (k : String) : Bool :=
  headers.any (fun p => p.1 == k)

/-- Python dict assignment: replace the binding if the key is present,
append it otherwise. -/
def setHeader (headers : List (String × String)) (k v : String) :
    List (String × String) :=
  if hasHeader headers k then
    headers.map (fun p => if p.1 == k then (k, v) else p)
  else headers ++ [(k, v)]

/-- helper.py lines 35-37. -/
def headers_to_sign_with_body : List String :=
  ["(request-target)", "host", "date", "digest", "content-type"]

/-- helper.py lines 38-40. -/
def headers_to_sign_without_body : List String :=
  ["(request-target)", "host", "date", "content-type"]

/-- helper.py line 45: the `headers=` argument passed to `HeaderSigner` —
the with-body list exactly when the supplied header dict has a
`digest` key. -/
def generate_signature_header_list (headers : List (String × String)) :
    List String :=
  if hasHeader headers "digest" then headers_to_sign_with_body
  else headers_to_sign_without_body

/-- Python `str.lower()` on one ASCII character. -/
def lowerChar (c : Char) : Char :=
  if 65 ≤ c.toNat && c.toNat ≤ 90 then Char.ofNat (c.toNat + 32) else c

/-- Python `str.lower()` (ASCII range, which is all the code lowercases). -/
def pyLower (s : String) : String := String.mk (s.toList.map lowerChar)

/-- Python `str.split(sep)` on characters: split at every separator,
keeping empty segments. -/
def pySplit (sep : Char) : List Char → List (List Char)
  | [] => [[]]
  | c :: rest =>
    match pySplit sep rest with
    | [] => [[]]
    | g :: gs => if c == sep then [] :: g :: gs else (c :: g) :: gs

def pySplitStr (sep : Char) (s : String) : List String :=
  (pySplit sep s.toList).map String.mk

/-- Signing string of the HTTP-signature scheme (built inside the external
`httpsig` library from the header list selected by `generate_signature`):
one `name: value` line per selected header, `(request-target)` expanding to
the lowercased method and the path, joined by newlines. -/
def build_signing_string (method path : String) (names : List String)
    (headers : List (String × String)) : String :=
  String.intercalate "\n" (names.map fun n =>
    if n == "(request-target)" then
      "(request-target): " ++ pyLower method ++ " " ++ path
    else n ++ ": " ++ ((getHeader headers n).getD ""))

/-- Value of the `Signature` header emitted by `HeaderSigner.sign` (external
`httpsig` library): `keyId=...,algorithm=...,headers=...,signature=...`,
with `sign` standing for the cryptographic signature (already
specialised to the secret). -/
def signature_header_value (sign : String → String)
    (url_path key_id : String) (headers : List (String × String))
    (algorithm method : String) : String :=
  let hs := generate_signature_header_list headers
  "keyId=\"" ++ key_id ++ "\",algorithm=\"" ++ algorithm ++
  "\",headers=\"" ++ String.intercalate " " hs ++
  "\",signature=\"" ++ sign (build_signing_string method url_path hs headers)
  ++ "\""

/-- helper.py lines 34-53: sign the request headers, adding the `Signature`
header.  `sign : secret → signing-string → base64 signature` abstracts the
`httpsig` `HeaderSigner` cryptography for the given `algorithm`. -/
def generate_signature (sign : String → String → String)
    (url_path key_id secret : String) (headers : List (String × String))
    (algorithm method : String) : List (String × String) :=
  setHeader headers "Signature"
    (signature_header_value (sign secret) url_path key_id headers
      algorithm method)

/-- Char-list version of `String.startsWith` for the regex model. -/
def startsWithChars : List Char → List Char → Bool
  | [], _ => true
  | _ :: _, [] => false
  | p :: ps, t :: ts => p == t && startsWithChars ps ts

/-- Match attempt of `headers="([^"]+)"` at one position, `cs` being the text
right after the literal `headers="`: the capture is the maximal run of
non-quote characters, and succeeds when it is non-empty and followed by a
closing quote. -/
def captureAt (cs : List Char) : Option String :=
  let cap := cs.takeWhile (fun c => c ≠ '"')
  if cap.isEmpty then none
  else if (cs.drop cap.length).head? = some '"' then some (String.mk cap)
  else none

/-- Leftmost match of Python's `re.search(r'headers="([^"]+)"', s)`:
scan positions left to right, at each position require the literal
`headers="` followed by a successful capture. -/
def searchHeadersGroup : List Char → Option String
  | [] => none
  | c :: rest =>
      if startsWithChars "headers=\"".toList (c :: rest) then
        match captureAt ((c :: rest).drop 9) with
        | some cap => some cap
        | none => searchHeadersGroup rest
      else searchHeadersGroup rest

/-- helper.py lines 56-70.  `headers.get('signature')` returns `None` when
the key is absent, and `re.search` applied to `None` raises an uncaught
`TypeError`; a present but unparsable value returns `False`; otherwise the
space-separated capture becomes the `required_headers` handed to the
external `HeaderVerifier`, abstracted as `verify`. -/
def verify_signature (verify : List String → Bool)
    (url_path secret : String) (headers : List (String × String))
    (method : String) : Except PyErr Bool :=
  match getHeader headers "signature" with
  | none => .error .typeError
  | some s =>
    match searchHeadersGroup s.toList with
    | none => .ok false
    | some headers_to_sign => .ok (verify (pySplitStr ' ' headers_to_sign))

-- ===========================================================================
-- model.py: payload values and the pydantic v2 machinery the model relies on.
-- ===========================================================================

/-- JSON-ish values appearing in construction payloads of the pydantic
models, plus `url`: the `pydantic_core.Url` object that pydantic v2 coerces
an `HttpUrl`-typed string into.  A `url` is NOT a Python `str` (v2 `Url` is
not a `str` subclass) and compares unequal to every `str`. -/
inductive PyVal where
  | null
  | pybool (b : Bool)
  | str (s : String)
  | int (n : Int)
  | arr (xs : List PyVal)
  | obj (kvs : List (String × PyVal))
  | url (s : String)
deriving Repr

/-- Payload lookup (keyword arguments / parsed JSON object). -/
def pyGet (payload : List (String × PyVal)) (k : String) : Option PyVal :=
  (payload.find? (fun p => p.1 == k)).map Prod.snd

/-- Acceptance test of pydantic's `HttpUrl` on a string: an http or https
scheme followed by a non-empty remainder.  (Hosts that pydantic would reject
for finer reasons never appear in this development, so the finer checks are
not load-bearing.) -/
def isHttpUrl (s : String) : Bool :=
  (startsWithChars "http://".toList s.toList && s.length > 7) ||
  (startsWithChars "https://".toList s.toList && s.length > 8)

/-- Result of validating one pydantic field: a value, a collected
`ValueError` (pydantic turns those into a `ValidationError` listing every
failed field), or a Python exception that pydantic v2 lets escape. -/
inductive FieldRes (α : Type) where
  | ok (a : α)
  | verr (m : String)
  | raised (e : PyErr)

/-- Thread one field through a model construction: `verr` is appended to the
collected error list (the field keeps a placeholder value, never observed
because a non-empty list fails the construction), `raised` aborts the whole
construction. -/
def fieldStep {α : Type} (errs : List String) (dflt : α) :
    FieldRes α → Except PyErr (List String × α)
  | .ok a => .ok (errs, a)
  | .verr m => .ok (errs ++ [m], dflt)
  | .raised e => .error e

/-- Outcome of a pydantic model construction: a validated model, a
`ValidationError` listing every offending field, or an uncaught exception. -/
inductive POut (α : Type) where
  | ok (m : α)
  | vErrors (es : List String)
  | raised (e : PyErr)

def poutOf {α : Type} : Except PyErr (List String × α) → POut α
  | .error e => .raised e
  | .ok ([], m) => .ok m
  | .ok (es, _) => .vErrors es

-- ===========================================================================
-- model.py lines 28-63: ActivityStreamsBase and its @context validator.
-- ===========================================================================

def as2Uri : String := "https://www.w3.org/ns/activitystreams"

/-- The error message raised by `validate_context` (model.py lines 50-52 and
56-58, quoted verbatim, including its odd spacing). -/
def ctxErrMsg : String :=
  "@context must include \"https: // www.w3.org/ns/activitystreams\"."

/-- Python substring test `needle in hay` for strings. -/
def containsSub : List Char → List Char → Bool
  | [], needle => needle.isEmpty
  | c :: rest, needle =>
      startsWithChars needle (c :: rest) || containsSub rest needle

/-- Python equality of a `str` needle against one element of a context list
after coercion: `str == str` is string equality; `str == Url` and
`str == dict` are `False` in pydantic v2 / Python. -/
def pyStrEqElem (needle : String) : PyVal → Bool
  | .str s => s == needle
  | _ => false

/-- Pydantic coercion of one element of a `List[Union[HttpUrl,
Dict[str, Any]]]` context list: strings become `Url` objects, dicts stay. -/
def coerceCtxElem : PyVal → Except String PyVal
  | .str s =>
      if isHttpUrl s then .ok (.url s)
      else .error "@context: input is not a valid URL or dict"
  | .url s => .ok (.url s)
  | .obj kvs => .ok (.obj kvs)
  | _ => .error "@context: input is not a valid URL or dict"

/-- Pydantic coercion of the whole `activitypub_context` value
(`Optional[Union[HttpUrl, List[Union[HttpUrl, Dict[str, Any]]]]]`,
model.py lines 29-31): a lone string becomes a `Url`, a list is coerced
elementwise, an explicit `None` is kept by `Optional`. -/
def coerceContextValue : PyVal → Except String PyVal
  | .null => .ok .null
  | .str s =>
      if isHttpUrl s then .ok (.url s)
      else .error "@context: input is not a valid URL or list"
  | .url s => .ok (.url s)
  | .arr xs => do .ok (.arr (← xs.mapM coerceCtxElem))
  | _ => .error "@context: input is not a valid URL or list"

/-- model.py lines 44-60, `ActivityStreamsBase.validate_context`, running
(as a mode-after validator) on the already-coerced value: raise unless a
`str` value contains the namespace as a substring or a `list` value contains
it as an element under Python equality; every other shape passes. -/
def validate_context (value : PyVal) : Except String PyVal :=
  match value with
  | .str s =>
      if !(containsSub s.toList as2Uri.toList) then .error ctxErrMsg
      else .ok value
  | .arr xs =>
      if !(xs.any (pyStrEqElem as2Uri)) then .error ctxErrMsg
      else .ok value
  | _ => .ok value

/-- Full pydantic handling of a supplied `@context` value: type
coercion, then the `validate_context` field validator. -/
def parseContextValue (v : PyVal) : Except String PyVal :=
  match coerceContextValue v with
  | .error m => .error m
  | .ok cv => validate_context cv

/-- Default `@context` of `ActivityStreamsBase` (model.py lines 31-40).
Defaults are not validated (pydantic `validate_default` is off), so the
value stays as the raw Python list. -/
def defaultASContext : PyVal :=
  .arr [.str as2Uri, .str "https://w3id.org/security/v1",
        .obj [("schema", .str "http://schema.org#"),
              ("toot", .str "http://joinmastodon.org/ns#"),
              ("misskey", .str "https://misskey-hub.net/ns#"),
              ("mossy", .str "https://hub.mossy.social/ns#")]]

/-- Handling of `activitypub_context` as one pydantic field: absent means the
(unvalidated) default, present means coercion plus `validate_context`. -/
def contextField (v? : Option PyVal) : FieldRes PyVal :=
  match v? with
  | none => .ok defaultASContext
  | some v =>
    match parseContextValue v with
    | .error m => .verr m
    | .ok cv => .ok cv

/-- Field `id: Optional[HttpUrl]` (model.py line 41). -/
def idField (v? : Option PyVal) : FieldRes (Option String) :=
  match v? with
  | none => .ok none
  | some .null => .ok none
  | some (.str s) =>
      if isHttpUrl s then .ok (some s)
      else .verr "id: Input should be a valid URL"
  | some _ => .verr "id: Input should be a valid URL"

/-- Field `type: Optional[str]` (model.py line 42). -/
def optStrField (label : String) (v? : Option PyVal) :
    FieldRes (Option String) :=
  match v? with
  | none => .ok none
  | some .null => .ok none
  | some (.str s) => .ok (some s)
  | some _ => .verr label

/-- The three declared fields of `ActivityStreamsBase`; pydantic's default
`extra='ignore'` drops every other payload key. -/
structure ASBaseModel where
  activitypub_context : PyVal
  id : Option String
  type : Option String

/-- Construction of `ActivityStreamsBase` from a payload (model.py lines
28-63): validate `@context`, `id`, `type` in declaration order, ignore all
other keys. -/
def ActivityStreamsBase_parse (payload : List (String × PyVal)) :
    POut ASBaseModel :=
  poutOf (do
    let (e, ctx) ← fieldStep [] defaultASContext
      (contextField (pyGet payload "@context"))
    let (e, i) ← fieldStep e none (idField (pyGet payload "id"))
    let (e, t) ← fieldStep e none
      (optStrField "type: Input should be a valid string"
        (pyGet payload "type"))
    .ok (e, ⟨ctx, i, t⟩))

/-- Serialization of one stored context element back to JSON
(`model_dump(mode='json')`): `Url` objects render as their string. -/
def dumpCtxElem : PyVal → PyVal
  | .url s => .str s
  | v => v

def dumpCtxVal : PyVal → PyVal
  | .url s => .str s
  | .arr xs => .arr (xs.map dumpCtxElem)
  | v => v

def dumpOptStr : Option String → PyVal
  | none => .null
  | some s => .str s

/-- Serialization `model_dump(mode='json', by_alias=True)` of an `ActivityStreamsBase`
value: exactly the three declared fields are emitted (`None` included). -/
def ActivityStreamsBase_dump (m : ASBaseModel) : List (String × PyVal) :=
  [("@context", dumpCtxVal m.activitypub_context),
   ("id", dumpOptStr m.id), ("type", dumpOptStr m.type)]

-- ===========================================================================
-- model.py lines 178-201, 305-306, 365-372, 395-396: BaseActivity's
-- IntransitiveActivity refinement and its Arrive / Question / Travel leaves.
-- ===========================================================================

/-- Field `object: None = Field(None, alias='object')` (model.py line 201): the
annotation is `NoneType`, so a supplied value validates only when it is the
JSON `null`; an absent field takes the unvalidated `None` default. -/
def intransitiveObjectField (v? : Option PyVal) : FieldRes (Option PyVal) :=
  match v? with
  | none => .ok none
  | some .null => .ok none
  | some _ => .verr "object: Input should be None"

/-- Field `type: str = Field('<kind>')` as overridden in each concrete activity
subclass (e.g. model.py lines 305-306): a plain `str` with a literal
default, so any string is accepted and `None` is not. -/
def literalTypeField (dflt : String) (v? : Option PyVal) : FieldRes String :=
  match v? with
  | none => .ok dflt
  | some (.str s) => .ok s
  | some _ => .verr "type: Input should be a valid string"

/-- The fields of an intransitive activity exercised by this development:
the envelope plus the statically forbidden `object`.  The remaining
inherited `BaseObject`/`BaseActivity` fields are all optional with `None`
defaults and are never supplied by any theorem below, so their validators
never run. -/
structure IntransitiveModel where
  activitypub_context : PyVal
  id : Option String
  type : String
  object : Option PyVal

/-- Construction of an `IntransitiveActivity` subclass with type literal
`kind` (model.py lines 200-201 with 305-306 / 365-366 / 395-396) from a
payload over the envelope, `type` and `object` keys. -/
def IntransitiveActivity_parse (kind : String)
    (payload : List (String × PyVal)) : POut IntransitiveModel :=
  poutOf (do
    let (e, ctx) ← fieldStep [] defaultASContext
      (contextField (pyGet payload "@context"))
    let (e, i) ← fieldStep e none (idField (pyGet payload "id"))
    let (e, t) ← fieldStep e kind
      (literalTypeField kind (pyGet payload "type"))
    let (e, ob) ← fieldStep e none
      (intransitiveObjectField (pyGet payload "object"))
    .ok (e, ⟨ctx, i, t, ob⟩))

def ArriveActivity_parse : List (String × PyVal) → POut IntransitiveModel :=
  IntransitiveActivity_parse "Arrive"

def QuestionActivity_parse : List (String × PyVal) → POut IntransitiveModel :=
  IntransitiveActivity_parse "Question"

def TravelActivity_parse : List (String × PyVal) → POut IntransitiveModel :=
  IntransitiveActivity_parse "Travel"

-- ===========================================================================
-- model.py lines 13-15 and 489-499: the mimetypes table and
-- TombstoneObject.check_media_type.
-- ===========================================================================

/-- Finite model of the Python `mimetypes` default type-to-extension table
(keys are lowercase MIME strings).  Only a representative sample of the
standard library table is listed; none of its entries is an ActivityStreams
type name such as `Note`. -/
def mimetypes_default_types : List (String × String) :=
  [("text/plain", ".txt"), ("text/html", ".html"),
   ("application/json", ".json"), ("image/png", ".png"),
   ("image/jpeg", ".jpg"), ("audio/mpeg", ".mp3"), ("video/mp4", ".mp4")]

/-- The two `mimetypes.add_type` registrations performed at module load
(model.py lines 13-15). -/
def mimetypes_added_types : List (String × String) :=
  [("application/ld+json; profile=\"https://www.w3.org/ns/activitystreams\"",
    ".json"),
   ("application/activity+json", ".json")]

def mimetypes_types_map : List (String × String) :=
  mimetypes_default_types ++ mimetypes_added_types

/-- Model of `mimetypes.guess_extension`: look the lowercased MIME string up in the
registered table, `None` when unknown. -/
def guess_extension (m : String) : Option String :=
  (mimetypes_types_map.find? (fun p => p.1 == pyLower m)).map Prod.snd

namespace TombstoneObject

/-- model.py lines 494-499, `TombstoneObject.check_media_type` on
`former_type`: raise `ValueError` whenever `mimetypes.guess_extension`
finds no extension for the value. -/
def check_media_type (value : String) : Except String String :=
  match guess_extension value with
  | none => .error ("Invalid MIME type: " ++ value)
  | some _ => .ok value

end TombstoneObject

-- ===========================================================================
-- model.py lines 20-25 and 132-142: validate_language_codes and the
-- language-map validator of BaseObject.
-- ===========================================================================

/-- model.py lines 20-25: `True` iff `pycountry.languages.lookup(code)`
succeeds (`LookupError` is mapped to `False`).  The external pycountry
ISO-639 database is abstracted as `lookup : String → Bool`. -/
def validate_language_codes (lookup : String → Bool) (code : String) : Bool :=
  lookup code

/-- Finite model of the pycountry ISO-639 language database restricted to
the entries this development touches: lookup succeeds on ISO codes and
English names, and the real database contains no hyphenated entry, so a
region-qualified tag such as `en-US` fails. -/
def pycountryLangs : List String :=
  ["en", "eng", "English", "fr", "fra", "fre", "French",
   "de", "deu", "ger", "German", "zh", "zho", "chi", "Chinese"]

def pycountry_lookup (s : String) : Bool := pycountryLangs.contains s

namespace BaseObject

/-- model.py lines 132-142, `BaseObject.validate_lang_code` running on an
already type-validated `Dict[str, str]` value of `contentMap` / `nameMap` /
`summaryMap`: collect every key on which `validate_language_codes` fails
and raise one `ValueError` naming the field and listing all of them. -/
def validate_lang_code (lookup : String → Bool) (fieldName : String)
    (v : List (String × String)) :
    Except (String × List String) (List (String × String)) :=
  let wrong_lang_code :=
    (v.map Prod.fst).filter
      (fun k => !(validate_language_codes lookup k))
  if wrong_lang_code.length > 0 then .error (fieldName, wrong_lang_code)
  else .ok v

end BaseObject

/-- Well-formedness of a BCP-47 language tag as the claims and spec use the
phrase (stated from the spec, not from model.py, for comparison with the
code's behaviour): hyphen-separated subtags, the primary one 2-8 letters,
the following ones 1-8 letters or digits. -/
def bcp47_well_formed (s : String) : Bool :=
  match pySplit '-' s.toList with
  | [] => false
  | first :: rest =>
    decide (2 ≤ first.length) && decide (first.length ≤ 8) &&
    first.all (fun c => c.isAlpha) &&
    rest.all (fun sub =>
      decide (1 ≤ sub.length) && decide (sub.length ≤ 8) &&
      sub.all (fun c => c.isAlphanum))

-- ===========================================================================
-- model.py lines 145-175: BaseLink (and its MentionLink leaf, line 510).
-- ===========================================================================

namespace BaseLink

/-- Field `href: HttpUrl = Field(None, alias='href')` (model.py line 146): the
`None` default is NOT validated (pydantic `validate_default` is off), so an
absent `href` silently becomes `None`; a supplied value must be a valid
URL, and in particular an explicit `null` fails the `HttpUrl` annotation. -/
def hrefField (v? : Option PyVal) : FieldRes (Option String) :=
  match v? with
  | none => .ok none
  | some (.str s) =>
      if isHttpUrl s then .ok (some s)
      else .verr "href: Input should be a valid URL"
  | some _ => .verr "href: Input should be a valid URL"

/-- model.py lines 169-175, `check_link_relation` on `rel`: reject strings
containing whitespace, form feed or comma.  On an explicit `null` the
`Optional[str]` annotation passes `None` through to the validator, whose
`for char in v` then raises an uncaught `TypeError`. -/
def relField (v? : Option PyVal) : FieldRes (Option String) :=
  match v? with
  | none => .ok none
  | some (.str s) =>
      if s.toList.any
          (fun c => c ∈ [' ', '\t', '\n', Char.ofNat 12, '\r', ',']) then
        .verr "rel: Link relation contains invalid characters"
      else .ok (some s)
  | some .null => .raised .typeError
  | some _ => .verr "rel: Input should be a valid string"

/-- Extraction of a `Dict[str, str]` payload value. -/
def asStrMap (kvs : List (String × PyVal)) :
    Option (List (String × String)) :=
  kvs.mapM (fun p =>
    match p.2 with
    | .str s => some (p.1, s)
    | _ => none)

/-- model.py lines 157-167, `BaseLink.validate_lang_code` on `name_map`:
the validator iterates `v.keys()`.  A dict value reaches the same
wrong-key collection as `BaseObject.validate_lang_code`; an explicit
`null` passes `Optional` and then `None.keys()` raises an uncaught
`AttributeError`. -/
def nameMapField (lookup : String → Bool) (v? : Option PyVal) :
    FieldRes (Option (List (String × String))) :=
  match v? with
  | none => .ok none
  | some .null => .raised .attributeError
  | some (.obj kvs) =>
      match asStrMap kvs with
      | none => .verr "name_map: Input should be a valid dictionary"
      | some m =>
        match BaseObject.validate_lang_code lookup "name_map" m with
        | .error _ => .verr "name_map: Invalid BCP47 language tag"
        | .ok m => .ok (some m)
  | some _ => .verr "name_map: Input should be a valid dictionary"

/-- model.py lines 157-167, the same `validate_lang_code` registered on
`hreflang`: the field is `Optional[str]`, so any supplied string (and any
explicit `null`) reaches `v.keys()`, which raises an uncaught
`AttributeError` — a string-valued `hreflang` can never validate. -/
def hreflangField (v? : Option PyVal) : FieldRes (Option String) :=
  match v? with
  | none => .ok none
  | some (.str _) => .raised .attributeError
  | some .null => .raised .attributeError
  | some _ => .verr "hreflang: Input should be a valid string"

/-- Fields `height` / `width`: `Optional[int]` with `ge=0` (model.py lines
152-153); pydantic's lax mode also coerces integral strings. -/
def geIntField (label : String) (v? : Option PyVal) :
    FieldRes (Option Int) :=
  match v? with
  | none => .ok none
  | some .null => .ok none
  | some (.int n) => if 0 ≤ n then .ok (some n) else .verr label
  | some (.str s) =>
      match s.toInt? with
      | some n => if 0 ≤ n then .ok (some n) else .verr label
      | none => .verr label
  | some _ => .verr label

/-- Field `preview` (model.py lines 154-155): a reference union accepted
opaquely.  No claim supplies a `preview`, so the union's inner shape checks
are not modelled. -/
def previewField (v? : Option PyVal) : FieldRes (Option PyVal) :=
  match v? with
  | none => .ok none
  | some v => .ok (some v)

structure LinkModel where
  activitypub_context : PyVal
  id : Option String
  type : Option String
  href : Option String
  rel : Option String
  media_type : Option String
  name : Option String
  name_map : Option (List (String × String))
  hreflang : Option String
  height : Option Int
  width : Option Int
  preview : Option PyVal

/-- Construction of a `BaseLink` (model.py lines 145-175) from a payload:
pydantic validates the fields in declaration order, collecting
`ValueError`s across fields into one `ValidationError`, while the first
`TypeError`/`AttributeError` escaping a validator aborts the whole
construction.  `BaseLink` declares no validator on `media_type`. -/
def parseE (lookup : String → Bool) (payload : List (String × PyVal)) :
    Except PyErr (List String × LinkModel) := do
  let (e, ctx) ← fieldStep [] defaultASContext
    (contextField (pyGet payload "@context"))
  let (e, i) ← fieldStep e none (idField (pyGet payload "id"))
  let (e, t) ← fieldStep e none
    (optStrField "type: Input should be a valid string"
      (pyGet payload "type"))
  let (e, hr) ← fieldStep e none (hrefField (pyGet payload "href"))
  let (e, r) ← fieldStep e none (relField (pyGet payload "rel"))
  let (e, mt) ← fieldStep e none
    (optStrField "media_type: Input should be a valid string"
      (pyGet payload "mediaType"))
  let (e, nm) ← fieldStep e none
    (optStrField "name: Input should be a valid string"
      (pyGet payload "name"))
  let (e, nmap) ← fieldStep e none
    (nameMapField lookup (pyGet payload "nameMap"))
  let (e, hl) ← fieldStep e none (hreflangField (pyGet payload "hreflang"))
  let (e, ht) ← fieldStep e none
    (geIntField "height: Input should be greater than or equal to 0"
      (pyGet payload "height"))
  let (e, wd) ← fieldStep e none
    (geIntField "width: Input should be greater than or equal to 0"
      (pyGet payload "width"))
  let (e, pv) ← fieldStep e none (previewField (pyGet payload "preview"))
  .ok (e, ⟨ctx, i, t, hr, r, mt, nm, nmap, hl, ht, wd, pv⟩)

def parse (lookup : String → Bool) (payload : List (String × PyVal)) :
    POut LinkModel :=
  poutOf (parseE lookup payload)

end BaseLink

/-- Leaf `MentionLink` (model.py lines 510-511) only overrides the `type`
literal; `href` and `hreflang` behave exactly as in `BaseLink`, so the
`BaseLink` construction model covers it for those fields. -/
def MentionLink_parse (lookup : String → Bool)
    (payload : List (String × PyVal)) : POut BaseLink.LinkModel :=
  BaseLink.parse lookup payload

-- ===========================================================================
-- Helper lemmas (shared; none of them names a claim theorem).
-- ===========================================================================

theorem fieldStep_ok {α : Type} (errs : List String) (d : α) (r : FieldRes α)
    (h : ∀ e, r ≠ FieldRes.raised e) :
    ∃ p : List String × α, fieldStep errs d r = .ok p := by
  cases r with
  | ok a => exact ⟨(errs, a), rfl⟩
  | verr m => exact ⟨(errs ++ [m], d), rfl⟩
  | raised e => exact absurd rfl (h e)

theorem fieldStep_eq_ok {α : Type} (errs : List String) (d : α) (a : α) :
    fieldStep errs d (FieldRes.ok a) = .ok (errs, a) := rfl

theorem fieldStep_eq_verr {α : Type} (errs : List String) (d : α)
    (m : String) : fieldStep errs d (FieldRes.verr m)
      = .ok (errs ++ [m], d) := rfl

theorem fieldStep_eq_raised {α : Type} (errs : List String) (d : α)
    (e : PyErr) : fieldStep errs d (FieldRes.raised e) = .error e := rfl

theorem contextField_not_raised (v? : Option PyVal) (e : PyErr) :
    contextField v? ≠ FieldRes.raised e := by
  cases v? with
  | none => simp [contextField]
  | some v =>
      simp only [contextField]
      split <;> simp

theorem idField_not_raised (v? : Option PyVal) (e : PyErr) :
    idField v? ≠ FieldRes.raised e := by
  unfold idField
  split <;> (try split) <;> simp

theorem optStrField_not_raised (label : String) (v? : Option PyVal)
    (e : PyErr) : optStrField label v? ≠ FieldRes.raised e := by
  unfold optStrField
  split <;> simp

theorem hrefField_not_raised (v? : Option PyVal) (e : PyErr) :
    BaseLink.hrefField v? ≠ FieldRes.raised e := by
  unfold BaseLink.hrefField
  split <;> (try split) <;> simp

theorem relField_not_raised (v? : Option PyVal)
    (hv : v? ≠ some PyVal.null) (e : PyErr) :
    BaseLink.relField v? ≠ FieldRes.raised e := by
  unfold BaseLink.relField
  split
  · simp
  · split <;> simp
  · exact absurd rfl hv
  · simp

theorem nameMapField_raised_attr (lookup : String → Bool)
    (v? : Option PyVal) (e : PyErr)
    (h : BaseLink.nameMapField lookup v? = FieldRes.raised e) :
    e = PyErr.attributeError := by
  unfold BaseLink.nameMapField at h
  revert h
  split
  · intro h; exact absurd h (by simp)
  · intro h; exact (FieldRes.raised.inj h).symm
  · split
    · intro h; exact absurd h (by simp)
    · split <;> (intro h; exact absurd h (by simp))
  · intro h; exact absurd h (by simp)

theorem hreflangField_raises (s : String) :
    BaseLink.hreflangField (some (PyVal.str s))
      = FieldRes.raised PyErr.attributeError := rfl

-- ===========================================================================
-- Claim theorems.
-- ===========================================================================

set_option maxRecDepth 8000 in
/-- Sanity anchor for the SHA-256/base64 embedding: the digest of "abc"
matches the published SHA-256 test vector, base64-encoded. -/
theorem generate_digest_of_abc :
    generate_digest "abc"
      = ("SHA-256", "ungWv48Bz+pBQUDeXa4iI7ADYaOWF3qctBD/YfIAFa0=") := by
  decide

/-- C1: for every body string `b`, `generate_digest b` is the pair
`("SHA-256", base64(sha256(utf8 bytes of b)))`, and `verify_digest` accepts
exactly the second component of that pair. -/
theorem digest_round_trip (b : String) :
    (generate_digest b).1 = "SHA-256" ∧
    (generate_digest b).2 = b64encode (sha256Bytes (utf8Bytes b)) ∧
    verify_digest b (generate_digest b).2 = true := by
  refine ⟨rfl, rfl, ?_⟩
  simp [verify_digest]

/-- C2: on a request with no `signature` header, `verify_signature` raises
an uncaught `TypeError` (`re.search` applied to `None`) instead of
returning a rejection; with the header present but lacking a parsable
`headers="..."` component it does return `False`. -/
theorem verify_signature_missing_header_raises :
    verify_signature (fun _ => true) "/inbox" "secret" [] "POST"
      = .error PyErr.typeError ∧
    verify_signature (fun _ => true) "/inbox" "secret"
      [("signature", "keyId=\"https://a.example/key\"")] "POST"
      = .ok false :=
  ⟨rfl, rfl⟩

/-- C3 counterexample: for a digest-less header set the signed header list
is NOT the claimed `[(request-target), host, date]` — the `Signature`
header generated for such a request declares
`(request-target) host date content-type`. -/
theorem generate_signature_header_list_counterexample :
    generate_signature_header_list
      [("host", "b.example"), ("date", "Tue, 07 May 2024 17:50:50 GMT"),
       ("content-type", "application/activity+json")]
      ≠ ["(request-target)", "host", "date"] ∧
    searchHeadersGroup
      (signature_header_value (fun _ => "MOCKSIG") "/inbox"
        "https://a.example/key#main"
        [("host", "b.example"), ("date", "Tue, 07 May 2024 17:50:50 GMT"),
         ("content-type", "application/activity+json")]
        "rsa-sha256" "POST").toList
      = some "(request-target) host date content-type" := by
  constructor
  · decide
  · decide

/-- C3 amended: `generate_signature` signs
`(request-target) host date digest content-type` when the supplied headers
carry a `digest` key and `(request-target) host date content-type` when they
do not — only `digest` is conditional on the body, `content-type` is always
signed. -/
theorem generate_signature_header_list_spec
    (headers : List (String × String)) :
    (hasHeader headers "digest" = true →
      generate_signature_header_list headers
        = ["(request-target)", "host", "date", "digest", "content-type"]) ∧
    (hasHeader headers "digest" = false →
      generate_signature_header_list headers
        = ["(request-target)", "host", "date", "content-type"]) := by
  constructor <;> intro h <;>
    simp [generate_signature_header_list, h, headers_to_sign_with_body,
      headers_to_sign_without_body]

/-- C3 witness: both branches of the amended statement at concrete header
sets. -/
theorem generate_signature_header_list_spec_witness :
    generate_signature_header_list [("digest", "SHA-256=xyz")]
      = ["(request-target)", "host", "date", "digest", "content-type"] ∧
    generate_signature_header_list [("host", "b.example")]
      = ["(request-target)", "host", "date", "content-type"] :=
  ⟨(generate_signature_header_list_spec [("digest", "SHA-256=xyz")]).1 rfl,
   (generate_signature_header_list_spec [("host", "b.example")]).2 rfl⟩

/-- C4: the `@context` check does not test membership of the canonical
namespace URI.  After pydantic v2 coercion a list context holds `Url`
objects, which never compare equal to the `str` being sought, so the very
list `["https://www.w3.org/ns/activitystreams"]` is REJECTED; and a single
string context is a `Url`, not a `str`, so the check is skipped entirely
and an arbitrary URL not containing the namespace is ACCEPTED. -/
theorem validate_context_membership_broken :
    parseContextValue (PyVal.arr [PyVal.str as2Uri]) = .error ctxErrMsg ∧
    parseContextValue (PyVal.str "https://evil.example/ns")
      = .ok (PyVal.url "https://evil.example/ns") :=
  ⟨rfl, rfl⟩

/-- C5: each intransitive-activity kind (Arrive, Question, Travel) rejects
a payload whose `object` is non-null with a validation error, and accepts
the same payload with `object` absent or null. -/
theorem intransitive_object_forbidden (kind : String)
    (hk : kind ∈ (["Arrive", "Question", "Travel"] : List String))
    (v : PyVal) (hv : v ≠ PyVal.null) :
    IntransitiveActivity_parse kind [("type", PyVal.str kind), ("object", v)]
      = POut.vErrors ["object: Input should be None"] ∧
    IntransitiveActivity_parse kind [("type", PyVal.str kind)]
      = POut.ok ⟨defaultASContext, none, kind, none⟩ ∧
    IntransitiveActivity_parse kind
        [("type", PyVal.str kind), ("object", PyVal.null)]
      = POut.ok ⟨defaultASContext, none, kind, none⟩ := by
  refine ⟨?_, rfl, rfl⟩
  cases v with
  | null => exact absurd rfl hv
  | pybool b => rfl
  | str s => rfl
  | int n => rfl
  | arr xs => rfl
  | obj kvs => rfl
  | url s => rfl

/-- C5 witness: an `Arrive` with an inline object URI is rejected; the same
payload without `object` is accepted. -/
theorem intransitive_object_forbidden_witness :
    IntransitiveActivity_parse "Arrive"
        [("type", PyVal.str "Arrive"),
         ("object", PyVal.str "https://b.example/note/1")]
      = POut.vErrors ["object: Input should be None"] ∧
    IntransitiveActivity_parse "Arrive" [("type", PyVal.str "Arrive")]
      = POut.ok ⟨defaultASContext, none, "Arrive", none⟩ :=
  ⟨(intransitive_object_forbidden "Arrive" (by simp)
      (PyVal.str "https://b.example/note/1")
      (fun h => PyVal.noConfusion h)).1,
   (intransitive_object_forbidden "Arrive" (by simp)
      (PyVal.str "https://b.example/note/1")
      (fun h => PyVal.noConfusion h)).2.1⟩

/-- C6 counterexample: a document with an unknown `type` parses into the
generic envelope, but the extra field is dropped, so re-serializing does
not reproduce the input. -/
theorem unknown_type_not_lossless :
    ActivityStreamsBase_parse
        [("type", PyVal.str "MossyCustomKind"), ("ext", PyVal.str "x")]
      = POut.ok ⟨defaultASContext, none, some "MossyCustomKind"⟩ ∧
    ActivityStreamsBase_dump ⟨defaultASContext, none, some "MossyCustomKind"⟩
      ≠ [("type", PyVal.str "MossyCustomKind"), ("ext", PyVal.str "x")] := by
  refine ⟨rfl, fun h => ?_⟩
  simpa [ActivityStreamsBase_dump] using congrArg List.length h

/-- C6 amended: parsing an unknown-discriminator document succeeds and
yields the generic envelope (the base model constrains `type` no further),
but only `@context`/`id`/`type` survive: any other field is ignored on
input and absent from the dump, so re-serialization is not lossless. -/
theorem unknown_type_parses_generic (s : String) (kv : String × PyVal)
    (h1 : kv.1 ≠ "@context") (h2 : kv.1 ≠ "id") (h3 : kv.1 ≠ "type") :
    ActivityStreamsBase_parse [("type", PyVal.str s), kv]
      = POut.ok ⟨defaultASContext, none, some s⟩ ∧
    ActivityStreamsBase_dump ⟨defaultASContext, none, some s⟩
      ≠ [("type", PyVal.str s), kv] := by
  have k1 : (kv.1 == "@context") = false := beq_eq_false_iff_ne.mpr h1
  have k2 : (kv.1 == "id") = false := beq_eq_false_iff_ne.mpr h2
  have k3 : (kv.1 == "type") = false := beq_eq_false_iff_ne.mpr h3
  constructor
  · simp [ActivityStreamsBase_parse, poutOf, fieldStep, contextField,
      idField, optStrField, pyGet, List.find?, k1, k2, k3,
      Bind.bind, Except.bind]
  · intro h
    simpa [ActivityStreamsBase_dump] using congrArg List.length h

/-- C6 witness: the amended statement at a concrete unknown-kind payload. -/
theorem unknown_type_parses_generic_witness :
    ActivityStreamsBase_parse
        [("type", PyVal.str "ZetaKind"), ("custom", PyVal.int 3)]
      = POut.ok ⟨defaultASContext, none, some "ZetaKind"⟩ ∧
    ActivityStreamsBase_dump ⟨defaultASContext, none, some "ZetaKind"⟩
      ≠ [("type", PyVal.str "ZetaKind"), ("custom", PyVal.int 3)] :=
  unknown_type_parses_generic "ZetaKind" ("custom", PyVal.int 3)
    (by decide) (by decide) (by decide)

/-- C7: the language-map keys are not validated as BCP-47 syntax but by an
ISO-639 lookup: `en-US` is a syntactically well-formed BCP-47 tag, yet
whenever the pycountry lookup fails on it (as the real ISO-639 database
does, holding no hyphenated entries) the map `{en-US: ...}` is rejected
with exactly that key listed. -/
theorem lang_map_rejects_valid_bcp47 (lookup : String → Bool)
    (h : lookup "en-US" = false) :
    bcp47_well_formed "en-US" = true ∧
    BaseObject.validate_lang_code lookup "content_map" [("en-US", "Hello")]
      = .error ("content_map", ["en-US"]) := by
  refine ⟨by decide, ?_⟩
  simp [BaseObject.validate_lang_code, validate_language_codes,
    List.filter, h]

/-- C7 witness: the rejection at the modelled pycountry database. -/
theorem lang_map_rejects_valid_bcp47_witness :
    bcp47_well_formed "en-US" = true ∧
    BaseObject.validate_lang_code pycountry_lookup "content_map"
      [("en-US", "Hello")] = .error ("content_map", ["en-US"]) :=
  lang_map_rejects_valid_bcp47 pycountry_lookup rfl

/-- C9: `TombstoneObject` validates `formerType` through
`mimetypes.guess_extension`: an ActivityStreams type name such as `Note`
is rejected as an invalid MIME type, a registered MIME string is accepted,
and in general acceptance coincides exactly with the lookup finding an
extension. -/
theorem tombstone_former_type_mime_checked :
    TombstoneObject.check_media_type "Note"
      = .error "Invalid MIME type: Note" ∧
    TombstoneObject.check_media_type "application/activity+json"
      = .ok "application/activity+json" ∧
    ∀ v : String,
      (TombstoneObject.check_media_type v = .ok v ↔
        guess_extension v ≠ none) := by
  refine ⟨rfl, rfl, fun v => ?_⟩
  unfold TombstoneObject.check_media_type
  cases h : guess_extension v with
  | none => simp
  | some ext => simp

/-- C8 counterexample: constructing a `BaseLink` from a payload with no
`href` SUCCEEDS — the unvalidated `None` default fills the field — rather
than failing as a required URI. -/
theorem baselink_empty_payload_accepts :
    BaseLink.parse pycountry_lookup []
      = POut.ok ⟨defaultASContext, none, none, none, none, none, none,
                 none, none, none, none, none⟩ := rfl

/-- C8 amended: `href` is not enforced as required — an absent `href`
defaults to `None` without validation and the link constructs, while an
explicitly supplied `null` (or non-URL) `href` does fail the `HttpUrl`
annotation. -/
theorem baselink_href_not_required (lookup : String → Bool) :
    BaseLink.parse lookup []
      = POut.ok ⟨defaultASContext, none, none, none, none, none, none,
                 none, none, none, none, none⟩ ∧
    BaseLink.parse lookup [("href", PyVal.null)]
      = POut.vErrors ["href: Input should be a valid URL"] ∧
    BaseLink.hrefField none = FieldRes.ok none :=
  ⟨rfl, rfl, rfl⟩

/-- C10 counterexample: a payload carrying both `rel: null` and a string
`hreflang` raises `TypeError` (from the `rel` validator, which runs first),
not the `AttributeError` the claim promises for every string-`hreflang`
payload. -/
theorem hreflang_with_null_rel_raises_typeerror :
    BaseLink.parse pycountry_lookup
        [("rel", PyVal.null), ("hreflang", PyVal.str "en")]
      = POut.raised PyErr.typeError ∧
    (POut.raised PyErr.typeError : POut BaseLink.LinkModel)
      ≠ POut.raised PyErr.attributeError := by
  refine ⟨rfl, fun h => ?_⟩
  exact PyErr.noConfusion (POut.raised.inj h)

/-- C10 amended: every `BaseLink`/`MentionLink` payload with a string
`hreflang` makes construction raise an uncaught exception, so no link with
an `hreflang` value ever constructs; the exception is the language
validator's `AttributeError` (`.keys()` on a string) except when an
explicit `rel: null` makes the earlier `rel` validator raise `TypeError`
first. -/
theorem hreflang_never_validates (lookup : String → Bool)
    (payload : List (String × PyVal)) (s : String)
    (hh : pyGet payload "hreflang" = some (PyVal.str s)) :
    (BaseLink.parse lookup payload = POut.raised PyErr.attributeError ∨
     BaseLink.parse lookup payload = POut.raised PyErr.typeError) ∧
    (pyGet payload "rel" ≠ some PyVal.null →
      BaseLink.parse lookup payload = POut.raised PyErr.attributeError) := by
  obtain ⟨⟨e1, v1⟩, h1⟩ := fieldStep_ok [] defaultASContext
    (contextField (pyGet payload "@context")) (contextField_not_raised _)
  obtain ⟨⟨e2, v2⟩, h2⟩ := fieldStep_ok e1 none
    (idField (pyGet payload "id")) (idField_not_raised _)
  obtain ⟨⟨e3, v3⟩, h3⟩ := fieldStep_ok e2 none
    (optStrField "type: Input should be a valid string"
      (pyGet payload "type")) (optStrField_not_raised _ _)
  obtain ⟨⟨e4, v4⟩, h4⟩ := fieldStep_ok e3 none
    (BaseLink.hrefField (pyGet payload "href")) (hrefField_not_raised _)
  by_cases hrel : pyGet payload "rel" = some PyVal.null
  · have hE : BaseLink.parseE lookup payload = .error PyErr.typeError := by
      simp only [BaseLink.parseE, h1, h2, h3, h4, hrel, BaseLink.relField,
        fieldStep_eq_raised, Bind.bind, Except.bind]
    have hp : BaseLink.parse lookup payload = POut.raised PyErr.typeError := by
      simp [BaseLink.parse, poutOf, hE]
    exact ⟨Or.inr hp, fun hcon => absurd hrel hcon⟩
  · obtain ⟨⟨e5, v5⟩, h5⟩ := fieldStep_ok e4 none
      (BaseLink.relField (pyGet payload "rel"))
      (relField_not_raised _ hrel)
    obtain ⟨⟨e6, v6⟩, h6⟩ := fieldStep_ok e5 none
      (optStrField "media_type: Input should be a valid string"
        (pyGet payload "mediaType")) (optStrField_not_raised _ _)
    obtain ⟨⟨e7, v7⟩, h7⟩ := fieldStep_ok e6 none
      (optStrField "name: Input should be a valid string"
        (pyGet payload "name")) (optStrField_not_raised _ _)
    have hE : BaseLink.parseE lookup payload
        = .error PyErr.attributeError := by
      cases hnm : BaseLink.nameMapField lookup (pyGet payload "nameMap") with
      | raised e =>
          have he : e = PyErr.attributeError :=
            nameMapField_raised_attr _ _ _ hnm
          subst he
          simp only [BaseLink.parseE, h1, h2, h3, h4, h5, h6, h7, hnm,
            fieldStep_eq_raised, Bind.bind, Except.bind]
      | ok a =>
          simp only [BaseLink.parseE, h1, h2, h3, h4, h5, h6, h7, hnm, hh,
            BaseLink.hreflangField, fieldStep_eq_ok, fieldStep_eq_raised,
            Bind.bind, Except.bind]
      | verr m =>
          simp only [BaseLink.parseE, h1, h2, h3, h4, h5, h6, h7, hnm, hh,
            BaseLink.hreflangField, fieldStep_eq_verr, fieldStep_eq_raised,
            Bind.bind, Except.bind]
    have hp : BaseLink.parse lookup payload
        = POut.raised PyErr.attributeError := by
      simp [BaseLink.parse, poutOf, hE]
    exact ⟨Or.inl hp, fun _ => hp⟩

/-- C10 witness: the amended statement at a concrete payload without a
`rel` key: the `AttributeError` escapes. -/
theorem hreflang_never_validates_witness :
    BaseLink.parse pycountry_lookup [("hreflang", PyVal.str "en-US")]
      = POut.raised PyErr.attributeError :=
  (hreflang_never_validates pycountry_lookup
    [("hreflang", PyVal.str "en-US")] "en-US" rfl).2
    (fun h => Option.noConfusion h)
